import Mathlib

/-!
Shallow embedding of `src/game.js` (a browser MMO client) and proofs about it.

Conventions of the embedding:
* JS numbers used for world coordinates and viewport arithmetic are modelled
  as rationals (`ℚ`); the operations involved (subtraction, halving,
  `Math.min`/`Math.max`) are modelled by the exact operations.
* JS array indices and animation-frame counters are modelled as `Int`
  (JS array indexing with a negative or out-of-range index yields
  `undefined`, modelled as `none`).
* JS objects used as string-keyed maps are modelled either as association
  lists (when the set of keys matters operationally, e.g. the avatar image
  cache) or as functions `String → Option α` (the denotation of an object,
  e.g. the `players` table mutated by `Object.assign`).
* `player.animationFrame || 0` (JS falsy coalescing; `undefined` and `0`
  both map to `0`, any other integer is kept) is modelled by `orZero`.
-/

namespace GameJs

/-- JS `x || 0` on an optional integer field: `undefined` → 0, otherwise the
value itself (for integers, JS falsiness only adds the case `0 → 0`, which
agrees with the identity). -/
def orZero : Option Int → Int
  | none => 0
  | some v => v

/-- JS array indexing `frames[i]` with an `Int` index: negative or
out-of-range indices yield `undefined` (`none`). -/
def listGetJS (l : List String) (i : Int) : Option String :=
  if i < 0 then none else l.get? i.toNat

/-- Association-list lookup, the denotation of JS property access
`obj[key]` on a string-keyed object (keys are unique in a JS object). -/
def lookupStr {α : Type} (m : List (String × α)) (k : String) : Option α :=
  match m.find? (fun p => p.1 == k) with
  | none => none
  | some p => some p.2

/-- A player record as delivered by the server (`players` table entries).
`game.js` never constructs these; it stores and reads them. -/
structure Player where
  id : String
  username : String
  x : ℚ
  y : ℚ
  facing : String
  avatar : String
  animationFrame : Option Int
deriving DecidableEq, Repr

/-- An avatar descriptor: a name and a frame table mapping a direction
string to the ordered list of frame image sources (`avatar.frames`).
The JS guard `if (!avatar.frames)` is the missing-field case, not
representable here: every embedded avatar has a frame table. -/
structure Avatar where
  name : String
  frames : List (String × List String)
deriving DecidableEq, Repr

/-! ## Viewport (`centerViewportOnPlayer`, `clampViewportToWorld`, `setupCanvas`) -/

/-- The viewport record of `game.js` (`this.viewport`). -/
structure Viewport where
  x : ℚ
  y : ℚ
  width : ℚ
  height : ℚ
deriving DecidableEq, Repr

/-- `clampViewportToWorld` (game.js lines 281–284):
`viewport.x = Math.max(0, Math.min(viewport.x, worldWidth - viewport.width))`
and symmetrically for `y`. -/
def clampViewportToWorld (worldWidth worldHeight : ℚ) (v : Viewport) : Viewport :=
  { v with
    x := max 0 (min v.x (worldWidth - v.width)),
    y := max 0 (min v.y (worldHeight - v.height)) }

/-- `centerViewportOnPlayer` (game.js lines 270–279), for a present
`myPlayer` at world position `(px, py)`: set the camera to the player minus
half the viewport size, then clamp to the world. -/
def centerViewportOnPlayer (worldWidth worldHeight : ℚ) (px py : ℚ)
    (v : Viewport) : Viewport :=
  clampViewportToWorld worldWidth worldHeight
    { v with x := px - v.width / 2, y := py - v.height / 2 }

/-- `this.worldWidth` (game.js line 6). -/
def worldWidth : ℚ := 2048

/-- `this.worldHeight` (game.js line 7). -/
def worldHeight : ℚ := 2048

/-- The viewport as initialised by the constructor and `setupCanvas`
(game.js lines 19–24 and 52–63): canvas size is set to the world size and
the viewport width/height are set to the canvas size. -/
def setupViewport : Viewport :=
  { x := 0, y := 0, width := worldWidth, height := worldHeight }

/-! ## Reconnect state machine (`connectToServer`, `attemptReconnect`) -/

/-- `this.maxReconnectAttempts` (game.js line 29). -/
def maxReconnectAttempts : Nat := 5

/-- `attemptReconnect` (game.js lines 181–191): if the attempt counter is
below the maximum, increment it and schedule a reconnect after
`2000 * reconnectAttempts` ms (the value after the increment); otherwise
schedule nothing. Returns the new counter and the scheduled delay. -/
def attemptReconnect (reconnectAttempts : Nat) : Nat × Option Nat :=
  if reconnectAttempts < maxReconnectAttempts then
    (reconnectAttempts + 1, some (2000 * (reconnectAttempts + 1)))
  else
    (reconnectAttempts, none)

/-- The `ws.onopen` handler (game.js line 159) resets the attempt counter. -/
def onOpenReset (_reconnectAttempts : Nat) : Nat := 0

/-- The delays scheduled across `n` consecutive failed connection cycles
starting from attempt counter `s`: each failed cycle runs
`attemptReconnect` once (via `ws.onclose` or the `connectToServer` catch). -/
def reconnectDelays : Nat → Nat → List (Option Nat)
  | 0, _ => []
  | n + 1, s =>
    let r := attemptReconnect s
    r.2 :: reconnectDelays n r.1

/-! ## Keyboard input (`handleKeyDown`, `handleKeyUp`) -/

/-- An outbound intent message: `sendMoveCommand` / `sendStopCommand`. -/
inductive Intent where
  | move (direction : String)
  | stop
deriving DecidableEq, Repr

/-- `this.movementKeys` (game.js lines 33–38): the tracked key codes and
their directions. -/
def movementKeys (code : String) : Option String :=
  if code = "ArrowUp" then some "up"
  else if code = "ArrowDown" then some "down"
  else if code = "ArrowLeft" then some "left"
  else if code = "ArrowRight" then some "right"
  else none

/-- JS `Set.add` on `this.pressedKeys`, modelled as an insertion-ordered
duplicate-free list. -/
def setAdd (s : List String) (code : String) : List String :=
  if s.contains code then s else s ++ [code]

/-- JS `Set.delete` on `this.pressedKeys`. -/
def setDelete (s : List String) (code : String) : List String :=
  s.filter (fun k => k ≠ code)

/-- `handleKeyDown` (game.js lines 92–104): for a tracked key, add it to the
pressed set and send a move command (unconditionally — there is no
already-held check); untracked keys do nothing. Returns the new pressed set
and the list of intents sent. -/
def handleKeyDown (pressedKeys : List String) (code : String) :
    List String × List Intent :=
  match movementKeys code with
  | none => (pressedKeys, [])
  | some direction => (setAdd pressedKeys code, [Intent.move direction])

/-- `handleKeyUp` (game.js lines 107–120): for a tracked key, remove it from
the pressed set; if the set is then empty, send a stop command. -/
def handleKeyUp (pressedKeys : List String) (code : String) :
    List String × List Intent :=
  match movementKeys code with
  | none => (pressedKeys, [])
  | some _ =>
    let s := setDelete pressedKeys code
    (s, if s.isEmpty then [Intent.stop] else [])

/-- A raw keyboard event at the input boundary. -/
inductive KeyEvent where
  | down (code : String)
  | up (code : String)
deriving DecidableEq, Repr

/-- Run a sequence of keyboard events through the handlers, collecting all
intents sent. -/
def runKeys (pressedKeys : List String) : List KeyEvent → List String × List Intent
  | [] => (pressedKeys, [])
  | e :: es =>
    let r := match e with
      | KeyEvent.down c => handleKeyDown pressedKeys c
      | KeyEvent.up c => handleKeyUp pressedKeys c
    let rest := runKeys r.1 es
    (rest.1, r.2 ++ rest.2)

/-! ## Player-table merge (`handlePlayersMoved`) -/

/-- `Object.assign(this.players, message.players)` (game.js line 255),
on the maps the two objects denote: every identifier named in the delta is
replaced wholesale by the delta's record, every other identifier keeps its
previous binding. -/
def mergePlayers (players delta : String → Option Player) :
    String → Option Player :=
  fun id =>
    match delta id with
    | some p => some p
    | none => players id

/-! ## Sprite cache (`preloadAvatarImages`) and renderer (`drawPlayer`,
`getAvatarFrame`) -/

/-- The template literal `` `${name}_${direction}_${frameIndex}` `` used both
by `preloadAvatarImages` (game.js line 326) and `drawPlayer`
(game.js line 362). -/
def cacheKey (name direction : String) (frameIndex : Int) : String :=
  name ++ "_" ++ direction ++ "_" ++ toString frameIndex

/-- All cache keys `preloadAvatarImages` iterates over for an avatar: every
direction in the frame table paired with every index of its frame list
(game.js lines 324–326). -/
def avatarKeys (avatar : Avatar) : List String :=
  avatar.frames.flatMap (fun p =>
    (List.range p.2.length).map (fun i => cacheKey avatar.name p.1 (Int.ofNat i)))

/-- `preloadAvatarImages` (game.js lines 321–341): for each key not already
present in the image cache, start a decode (`new Image(); img.src = ...`).
The cache entry itself is only written later, in the `onload` callback, so
the cache passed here contains exactly the keys whose decodes have
completed. Returns the list of keys whose decode is started by this call. -/
def preloadStarts (avatar : Avatar) (cache : List String) : List String :=
  (avatarKeys avatar).filter (fun k => !(cache.contains k))

/-- A sprite-cache entry as stored by the `onload` callback
(game.js lines 331–335): the decoded image (identified here by its source
string) and its natural dimensions. -/
structure SpriteCacheEntry where
  src : String
  width : ℚ
  height : ℚ
deriving DecidableEq, Repr

/-- The avatar image cache after every decode started by
`preloadAvatarImages` for this avatar has completed: each (direction, index)
key maps to the decoded frame source at that index, with natural dimensions
`w × h`. -/
def fullyLoadedCache (avatar : Avatar) (w h : ℚ) :
    List (String × SpriteCacheEntry) :=
  avatar.frames.flatMap (fun p =>
    p.2.enum.map (fun q =>
      (cacheKey avatar.name p.1 (Int.ofNat q.1), ⟨q.2, w, h⟩)))

/-- `getAvatarFrame` (game.js lines 393–404): for west facing substitute the
east direction; return null if the frame table lacks that direction;
otherwise index with `Math.min(animationFrame || 0, frames.length - 1)`
(JS indexing: a negative result yields `undefined`, modelled as `none`). -/
def getAvatarFrame (avatar : Avatar) (facing : String)
    (animationFrame : Option Int) : Option String :=
  let direction := if facing = "west" then "east" else facing
  match lookupStr avatar.frames direction with
  | none => none
  | some frames =>
    let frameIndex := min (orZero animationFrame) ((frames.length : Int) - 1)
    listGetJS frames frameIndex

/-- The observable effect of one sprite draw issued by `drawPlayer`: which
decoded image is drawn, whether the context is horizontally mirrored
(`scale(-1, 1)`), and the destination rectangle passed to `drawImage` (in
the mirrored coordinate system when `mirrored` is true). -/
structure DrawCall where
  src : String
  mirrored : Bool
  destX : ℚ
  destY : ℚ
  destWidth : ℚ
  destHeight : ℚ
deriving DecidableEq, Repr

/-- `drawPlayer` (game.js lines 343–391): resolve the avatar, cull players
outside the viewport plus a 50-unit margin, resolve the frame via
`getAvatarFrame`, look the sprite up in the cache under
`` `${avatar.name}_${player.facing}_${player.animationFrame || 0}` ``, and
if present draw it scaled to height 128 preserving aspect ratio, centered on
the player's screen position, with the west branch drawing under a
horizontal mirror at `(-drawX - displayWidth, drawY)`. Returns the sprite
draw call issued, or `none` when the draw is skipped. -/
def drawPlayer (avatars : List (String × Avatar))
    (cache : List (String × SpriteCacheEntry)) (viewport : Viewport)
    (player : Player) : Option DrawCall :=
  match lookupStr avatars player.avatar with
  | none => none
  | some avatar =>
    let screenX := player.x - viewport.x
    let screenY := player.y - viewport.y
    if screenX < -50 ∨ screenX > viewport.width + 50 ∨
        screenY < -50 ∨ screenY > viewport.height + 50 then none
    else
      match getAvatarFrame avatar player.facing player.animationFrame with
      | none => none
      | some _frameData =>
        match lookupStr cache
            (cacheKey avatar.name player.facing (orZero player.animationFrame)) with
        | none => none
        | some cachedData =>
          let baseHeight : ℚ := 128
          let aspectRatio := cachedData.width / cachedData.height
          let displayWidth := baseHeight * aspectRatio
          let displayHeight := baseHeight
          let drawX := screenX - displayWidth / 2
          let drawY := screenY - displayHeight / 2
          if player.facing = "west" then
            some ⟨cachedData.src, true, -drawX - displayWidth, drawY,
              displayWidth, displayHeight⟩
          else
            some ⟨cachedData.src, false, drawX, drawY, displayWidth,
              displayHeight⟩

end GameJs

/-! # Theorems -/

namespace GameJs

/-- C4: after recentering the camera on any target, if
`worldSize ≥ viewportSize` on an axis then `0 ≤ camera ≤ worldSize − viewportSize`
holds exactly on that axis, and if `worldSize ≤ viewportSize` on an axis the
clamp collapses that camera coordinate to 0. -/
theorem centerViewportOnPlayer_clamp_invariant
    (worldW worldH px py : ℚ) (v : Viewport) :
    ((v.width ≤ worldW →
        0 ≤ (centerViewportOnPlayer worldW worldH px py v).x ∧
        (centerViewportOnPlayer worldW worldH px py v).x ≤ worldW - v.width) ∧
      (worldW ≤ v.width → (centerViewportOnPlayer worldW worldH px py v).x = 0)) ∧
    ((v.height ≤ worldH →
        0 ≤ (centerViewportOnPlayer worldW worldH px py v).y ∧
        (centerViewportOnPlayer worldW worldH px py v).y ≤ worldH - v.height) ∧
      (worldH ≤ v.height → (centerViewportOnPlayer worldW worldH px py v).y = 0)) := by
  unfold centerViewportOnPlayer clampViewportToWorld
  refine ⟨⟨fun h => ⟨le_max_left 0 _, ?_⟩, fun h => ?_⟩,
          ⟨fun h => ⟨le_max_left 0 _, ?_⟩, fun h => ?_⟩⟩
  · exact max_le (by linarith) (min_le_right _ _)
  · exact max_eq_left (le_trans (min_le_right _ _) (by linarith))
  · exact max_le (by linarith) (min_le_right _ _)
  · exact max_eq_left (le_trans (min_le_right _ _) (by linarith))

/-- Witness for C4 at a concrete input: world 2048×2048, viewport 800×600,
recenter on (100, 2000). -/
theorem centerViewportOnPlayer_clamp_invariant_witness :
    (0 ≤ (centerViewportOnPlayer 2048 2048 100 2000 ⟨0, 0, 800, 600⟩).x ∧
      (centerViewportOnPlayer 2048 2048 100 2000 ⟨0, 0, 800, 600⟩).x ≤ 2048 - 800) ∧
    (centerViewportOnPlayer 100 2048 100 2000 ⟨0, 0, 800, 600⟩).x = 0 :=
  ⟨(centerViewportOnPlayer_clamp_invariant 2048 2048 100 2000
      ⟨0, 0, 800, 600⟩).1.1 (by norm_num),
    (centerViewportOnPlayer_clamp_invariant 100 2048 100 2000
      ⟨0, 0, 800, 600⟩).1.2 (by norm_num)⟩

/-- C10: in the shipped configuration (`setupCanvas` sets the canvas and
hence the viewport to the world dimensions, 2048×2048), recentering the
camera on any player position yields camera position exactly (0, 0). -/
theorem centerViewportOnPlayer_shipped_config_fixed (px py : ℚ) :
    (centerViewportOnPlayer worldWidth worldHeight px py setupViewport).x = 0 ∧
    (centerViewportOnPlayer worldWidth worldHeight px py setupViewport).y = 0 := by
  unfold centerViewportOnPlayer clampViewportToWorld setupViewport worldWidth worldHeight
  constructor <;>
    exact max_eq_left (le_trans (min_le_right _ _) (by norm_num))

/-- C5: starting from a fresh counter, six consecutive failed connection
cycles schedule exactly the delays 2000, 4000, 6000, 8000, 10000 ms and then
nothing (no sixth attempt), and a successful open resets the counter to 0. -/
theorem attemptReconnect_backoff_sequence :
    reconnectDelays 6 0 =
      [some 2000, some 4000, some 6000, some 8000, some 10000, none] ∧
    ∀ s : Nat, onOpenReset s = 0 := by
  exact ⟨by decide, fun _ => rfl⟩

/-- C3 counterexample: with `ArrowUp` already in the pressed set, a further
key-down for `ArrowUp` (a key repeat) still emits a move intent, so a move
is not emitted only on the not-held → held transition. -/
theorem handleKeyDown_repeat_reemits :
    "ArrowUp" ∈ (["ArrowUp"] : List String) ∧
    (handleKeyDown ["ArrowUp"] "ArrowUp").2 = [Intent.move "up"] := by
  decide

/-- C3 amended: a key-down for a tracked key emits exactly one move intent
for its direction on every event, whether or not the key is already held
(key repeats re-emit; the pressed-set insertion is the only deduplicated
part). -/
theorem handleKeyDown_always_emits (pressedKeys : List String)
    (code direction : String) (h : movementKeys code = some direction) :
    handleKeyDown pressedKeys code =
      (setAdd pressedKeys code, [Intent.move direction]) := by
  unfold handleKeyDown
  rw [h]

/-- Witness for the amended C3 at a concrete input: `ArrowLeft` pressed
while already held. -/
theorem handleKeyDown_always_emits_witness :
    handleKeyDown ["ArrowLeft"] "ArrowLeft" =
      (["ArrowLeft"], [Intent.move "left"]) := by
  rw [handleKeyDown_always_emits ["ArrowLeft"] "ArrowLeft" "left" (by decide)]
  decide

/-- C8: releasing a tracked key emits no stop intent when other keys remain
held (the remaining pressed set is nonempty), and emits exactly one stop
intent when the released key was the last one held. -/
theorem handleKeyUp_stop_iff_empty (pressedKeys : List String)
    (code direction : String) (h : movementKeys code = some direction) :
    ((handleKeyUp pressedKeys code).1 ≠ [] →
      (handleKeyUp pressedKeys code).2 = []) ∧
    ((handleKeyUp pressedKeys code).1 = [] →
      (handleKeyUp pressedKeys code).2 = [Intent.stop]) := by
  unfold handleKeyUp
  rw [h]
  constructor
  · intro hne
    simp only at hne ⊢
    rw [if_neg (by simpa [List.isEmpty_iff] using hne)]
  · intro he
    simp only at he ⊢
    rw [if_pos (by simpa [List.isEmpty_iff] using he)]

/-- Witness for C8, the spec's scenario: releasing `ArrowUp` while
`ArrowLeft` is still held emits nothing; then releasing `ArrowLeft` emits
exactly one stop. -/
theorem handleKeyUp_stop_iff_empty_witness :
    (handleKeyUp ["ArrowUp", "ArrowLeft"] "ArrowUp").2 = [] ∧
    (handleKeyUp ["ArrowLeft"] "ArrowLeft").2 = [Intent.stop] :=
  ⟨(handleKeyUp_stop_iff_empty ["ArrowUp", "ArrowLeft"] "ArrowUp" "up"
      (by decide)).1 (by decide),
    (handleKeyUp_stop_iff_empty ["ArrowLeft"] "ArrowLeft" "left"
      (by decide)).2 (by decide)⟩

/-- C6: applying a `players_moved` delta that names an identifier replaces
that identifier's stored record wholesale with the delta's record — no field
of the previous record survives. -/
theorem mergePlayers_wholesale (players delta : String → Option Player)
    (id : String) (p : Player) (h : delta id = some p) :
    mergePlayers players delta id = some p := by
  unfold mergePlayers
  rw [h]

/-- Witness for C6 at a concrete input: the delta record for `p1` differs
from the stored record in every field except the id, and the result is
exactly the delta record. -/
theorem mergePlayers_wholesale_witness :
    mergePlayers
      (fun id => if id = "p1"
        then some ⟨"p1", "old", 1, 2, "north", "a", none⟩ else none)
      (fun id => if id = "p1"
        then some ⟨"p1", "new", 7, 8, "south", "b", some 3⟩ else none)
      "p1" = some ⟨"p1", "new", 7, 8, "south", "b", some 3⟩ :=
  mergePlayers_wholesale _ _ "p1" _ (by decide)

/-- C7: an identifier absent from a `players_moved` delta keeps exactly its
previous binding — in particular it is not removed. -/
theorem mergePlayers_absent_unchanged (players delta : String → Option Player)
    (id : String) (h : delta id = none) :
    mergePlayers players delta id = players id := by
  unfold mergePlayers
  rw [h]

/-- Witness for C7 at a concrete input: `p2` is not named by the delta and
its entry survives unchanged. -/
theorem mergePlayers_absent_unchanged_witness :
    mergePlayers
      (fun id => if id = "p2"
        then some ⟨"p2", "keep", 5, 6, "east", "a", some 1⟩ else none)
      (fun id => if id = "p1"
        then some ⟨"p1", "new", 7, 8, "south", "b", some 3⟩ else none)
      "p2" = some ⟨"p2", "keep", 5, 6, "east", "a", some 1⟩ := by
  rw [mergePlayers_absent_unchanged _ _ "p2" (by decide)]
  decide

/-- C2 counterexample: the image cache is only written in the `onload`
callback, so calling `preloadAvatarImages` twice with the same avatar before
the first decode completes (cache still empty both times) starts two decode
operations for the key `a_south_0`, not exactly one. -/
theorem preloadAvatarImages_inflight_duplicate :
    (preloadStarts ⟨"a", [("south", ["img0"])]⟩ [] ++
        preloadStarts ⟨"a", [("south", ["img0"])]⟩ []).count
      (cacheKey "a" "south" 0) = 2 := by
  decide

/-- C2 amended: a first `preloadAvatarImages` call on an empty cache starts
one decode per (direction, frameIndex) key of the avatar, and a repeated
call after all of those decodes have completed (so the cache holds every key)
starts none — deduplication applies to completed decodes, not to in-flight
ones. -/
theorem preloadAvatarImages_idempotent_after_completion :
    (∀ avatar : Avatar, preloadStarts avatar [] = avatarKeys avatar) ∧
    (∀ avatar : Avatar, preloadStarts avatar (avatarKeys avatar) = []) := by
  constructor
  · intro a
    unfold preloadStarts
    apply List.filter_eq_self.mpr
    intro k _
    simp
  · intro a
    unfold preloadStarts
    apply List.filter_eq_nil_iff.mpr
    intro k hk
    simp [hk]

/-- C1: evaluation of the code at the failing input. For avatar `a` whose
frame table has only an east frame list (west frames are by convention
reused from east), `getAvatarFrame` resolves the west-facing frame at index
0 to the east frame `e0`, and the fully loaded cache holds the decoded east
entry under key `a_east_0`; but `drawPlayer` looks the sprite up under
`a_west_0` — a key `preloadAvatarImages` never creates, since it iterates
only over the directions present in the frame table — so the west-facing
player's sprite draw is skipped instead of using the decoded east entry. -/
theorem drawPlayer_west_cache_key_mismatch :
    getAvatarFrame ⟨"a", [("east", ["e0"])]⟩ "west" (some 0) = some "e0" ∧
    lookupStr (fullyLoadedCache ⟨"a", [("east", ["e0"])]⟩ 24 32)
      (cacheKey "a" "east" 0) = some ⟨"e0", 24, 32⟩ ∧
    (avatarKeys ⟨"a", [("east", ["e0"])]⟩).contains (cacheKey "a" "west" 0) =
      false ∧
    drawPlayer [("a", ⟨"a", [("east", ["e0"])]⟩)]
      (fullyLoadedCache ⟨"a", [("east", ["e0"])]⟩ 24 32) ⟨0, 0, 2048, 2048⟩
      ⟨"p1", "u", 100, 100, "west", "a", some 0⟩ = none := by
  refine ⟨by decide, by decide, by decide, ?_⟩
  norm_num [drawPlayer, fullyLoadedCache, lookupStr, cacheKey, getAvatarFrame,
    listGetJS, orZero]
  decide

/-- C9 counterexample: avatar `a` has east frames `e0, e1, e2`, the player
requests frame index 5, and every in-range frame is cached (in particular
the clamped frame `e2` under key `a_east_2`); `getAvatarFrame` clamps the
index and returns `e2`, yet `drawPlayer` looks the cache up under the
unclamped key `a_east_5` and skips the draw instead of drawing the clamped
frame. -/
theorem drawPlayer_out_of_range_skips :
    getAvatarFrame ⟨"a", [("east", ["e0", "e1", "e2"])]⟩ "east" (some 5) =
      some "e2" ∧
    lookupStr (fullyLoadedCache ⟨"a", [("east", ["e0", "e1", "e2"])]⟩ 24 32)
      (cacheKey "a" "east" 2) = some ⟨"e2", 24, 32⟩ ∧
    drawPlayer [("a", ⟨"a", [("east", ["e0", "e1", "e2"])]⟩)]
      (fullyLoadedCache ⟨"a", [("east", ["e0", "e1", "e2"])]⟩ 24 32)
      ⟨0, 0, 2048, 2048⟩ ⟨"p1", "u", 100, 100, "east", "a", some 5⟩ = none := by
  refine ⟨by decide, by decide, ?_⟩
  norm_num [drawPlayer, fullyLoadedCache, lookupStr, cacheKey, getAvatarFrame,
    listGetJS, orZero]
  decide

/-- C9 amended: `getAvatarFrame` clamps a too-large requested index from
above to `frameCount − 1` and returns that clamped frame source; but the
renderer's sprite-cache lookup uses the unclamped requested index, so
whenever that lookup misses (as it does for an out-of-range index against a
cache populated only with in-range keys) `drawPlayer` skips the player's
sprite draw rather than drawing the clamped frame. -/
theorem getAvatarFrame_clamps_above_lookup_unclamped :
    (∀ (avatar : Avatar) (facing : String) (frames : List String) (n : Nat),
        lookupStr avatar.frames (if facing = "west" then "east" else facing) =
          some frames →
        frames ≠ [] → frames.length ≤ n →
        getAvatarFrame avatar facing (some (n : Int)) =
          frames.get? (frames.length - 1)) ∧
    (∀ (avatars : List (String × Avatar))
        (cache : List (String × SpriteCacheEntry)) (viewport : Viewport)
        (player : Player) (avatar : Avatar),
        lookupStr avatars player.avatar = some avatar →
        lookupStr cache
          (cacheKey avatar.name player.facing
            (orZero player.animationFrame)) = none →
        drawPlayer avatars cache viewport player = none) := by
  constructor
  · intro avatar facing frames n hlk hne hn
    have hlen : 0 < frames.length := List.length_pos.mpr hne
    simp only [getAvatarFrame, hlk, orZero, listGetJS]
    rw [min_eq_right (by omega)]
    rw [if_neg (by omega)]
    congr 1
    omega
  · intro avatars cache viewport player avatar ha hc
    simp only [drawPlayer, ha]
    split
    · rfl
    · cases hf : getAvatarFrame avatar player.facing player.animationFrame with
      | none => rfl
      | some fd =>
        rw [hc]

/-- Witness for the amended C9 at concrete inputs: index 7 against two east
frames resolves to the clamped frame `e1`, and a player whose cache lookup
misses is skipped. -/
theorem getAvatarFrame_clamps_above_lookup_unclamped_witness :
    getAvatarFrame ⟨"a", [("east", ["e0", "e1"])]⟩ "east"
      (some ((7 : Nat) : Int)) = some "e1" ∧
    drawPlayer [("b", ⟨"b", [("east", ["e0"])]⟩)] [] ⟨0, 0, 2048, 2048⟩
      ⟨"p2", "u", 0, 0, "east", "b", none⟩ = none := by
  constructor
  · have h := getAvatarFrame_clamps_above_lookup_unclamped.1
      ⟨"a", [("east", ["e0", "e1"])]⟩ "east" ["e0", "e1"] 7
      (by decide) (by decide) (by decide)
    rw [h]
    decide
  · exact getAvatarFrame_clamps_above_lookup_unclamped.2
      [("b", ⟨"b", [("east", ["e0"])]⟩)] [] ⟨0, 0, 2048, 2048⟩
      ⟨"p2", "u", 0, 0, "east", "b", none⟩ ⟨"b", [("east", ["e0"])]⟩
      (by decide) (by decide)

end GameJs
